import Mathlib

/-!
A verification development for `VARQUERY_Search` (src/client/src/varquery.c)
of the varserver repository.

The function builds a `VarQuery` descriptor from its arguments, asks the
external registry for the first match (`VAR_GetFirst`), and then loops:
emit one record for the current match to the output file descriptor, ask
for the next match (`VAR_GetNext`), until a non-EOK result code is
returned, which the function then returns.

The external registry (declared in the varserver headers, which are not
part of src/) is modelled as an oracle: the ordered list of matches it
will hand to the descriptor, step by step, and the terminal result code it
reports once the traversal ends (exhaustion or fault).  The side effects of
one invocation are captured explicitly: the bytes written to the output
file descriptor, the ordered trace of build/cursor/emit events, and the
sequence of descriptor states.
-/

/-- POSIX result code for success (errno value 0). -/
def EOK : Nat := 0

/-- POSIX errno value EINVAL on Linux. -/
def EINVAL : Nat := 22

/-- POSIX errno value ENOENT on Linux. -/
def ENOENT : Nat := 2

/-- Modelled from the spec: the ShowValue bit of the search-mode bitmask
(`QUERY_SHOWVALUE` comes from the external varserver header, not in src/).
The claims only test whether this bit is set, so its exact position is
immaterial; it is fixed here as bit 5. -/
def QUERY_SHOWVALUE : Nat := 32

/-- Modelled from the spec: the `VarQuery` descriptor structure from the
external varserver header (not in src/), restricted to the fields that
`VARQUERY_Search` actually reads or writes: the search type, the instance
id filter / current instance id, the name-match pattern pointer (NULL is
`none`), the flags mask, the bounded tag specification buffer, and the
cursor-state fields `name` and `hVar` written by the registry. -/
structure VarQuery where
  type : Nat
  instanceID : Nat
  «match» : Option String
  flags : Nat
  tagspec : String
  name : String
  hVar : Nat
deriving DecidableEq

/-- Modelled from the spec: one `Active` step of the registry cursor — the
matched variable's name, its (uint32) instance id and opaque handle, which
the external `VAR_GetFirst`/`VAR_GetNext` write into the descriptor, plus
the bytes the external `VAR_Print` would render for that handle. -/
structure MatchStep where
  name : String
  instanceID : Nat
  hVar : Nat
  printed : String
deriving DecidableEq

/-- Modelled from the spec: the external registry's behaviour for one
traversal — the matches it will report in its own enumeration order,
followed by the terminal (non-EOK) result code: the exhaustion code when
the matches simply ran out, or a fault code. -/
structure Registry where
  steps : List MatchStep
  final : Nat

/-- Observable events of one `VARQUERY_Search` invocation, in order:
descriptor construction, the `VAR_GetFirst` call, each `VAR_GetNext`
call, and each record written to the output file descriptor. -/
inductive Event where
  | build : Event
  | getFirst : Event
  | getNext : Event
  | emit : String → Event
deriving DecidableEq

/-- Whether an event is an emission of a record. -/
def Event.isEmit : Event → Bool
  | Event.emit _ => true
  | _ => false

/-- The descriptor-construction phase of `VARQUERY_Search`
(varquery.c lines 131-149): `memset` the descriptor to zero, store
`searchType`, `instanceID`, `match` and `flags` as given, and copy
`tagspec` into the fixed buffer only when it is non-NULL and its length is
strictly below `MAX_TAGSPEC_LEN` (passed here as `maxTagspecLen`, since
the constant lives in the external header); otherwise the buffer keeps its
zeroed (empty) contents. -/
def buildQuery (searchType : Nat) («match» tagspec : Option String)
    (instanceID flags maxTagspecLen : Nat) : VarQuery :=
  let q : VarQuery :=
    { type := searchType, instanceID := instanceID, «match» := «match»,
      flags := flags, tagspec := "", name := "", hVar := 0 }
  match tagspec with
  | none => q
  | some ts =>
      if ts.utf8ByteSize < maxTagspecLen then { q with tagspec := ts } else q

/-- Decimal digit character for a digit value 0-9. -/
def digitChar : Nat → Char
  | 0 => '0'
  | 1 => '1'
  | 2 => '2'
  | 3 => '3'
  | 4 => '4'
  | 5 => '5'
  | 6 => '6'
  | 7 => '7'
  | 8 => '8'
  | _ => '9'

/-- Decimal digits of a positive number (empty for 0), most significant
first, with explicit fuel so the definition is structurally recursive;
`fuel ≥ n` always suffices since the value shrinks by a factor of ten per
step. -/
def decCharsAux : Nat → Nat → List Char
  | _, 0 => []
  | 0, _+1 => []
  | fuel+1, n+1 => decCharsAux fuel ((n+1) / 10) ++ [digitChar ((n+1) % 10)]

/-- Decimal digits of a positive number (empty for 0), most significant
first. -/
def decChars (n : Nat) : List Char := decCharsAux n n

/-- Decimal rendering of a natural number. -/
def decString (n : Nat) : String :=
  if n = 0 then "0" else String.mk (decChars n)

/-- The `%d` conversion applied to a uint32 value `m < 2^32`, as `dprintf`
performs it on the (two's-complement) target: values below `2^31` print as
themselves, larger values print as the negative number `m - 2^32`. -/
def fmtInt32 (m : Nat) : String :=
  if m < 2^31 then decString m else "-" ++ decString (2^32 - m)

/-- Modelled from the spec: the external `VAR_GetFirst`/`VAR_GetNext`
write the match's name, instance id and handle into the descriptor's
cursor-state fields, leaving the search-criteria fields alone.  The
instance id field is a uint32, hence the reduction mod `2^32`. -/
def applyStep (q : VarQuery) (v : MatchStep) : VarQuery :=
  { q with name := v.name, instanceID := v.instanceID % 2^32, hVar := v.hVar }

/-- The loop body's output (varquery.c lines 154-169): the name, bare when
the descriptor's current instance id is zero and otherwise prefixed by the
instance id in brackets via `%d`; then `=` and the registry-rendered value
when the ShowValue bit is set in `searchType`; then one newline. -/
def emitRecord (searchType : Nat) (q : VarQuery) (printed : String) : String :=
  (if q.instanceID = 0 then q.name
   else "[" ++ fmtInt32 q.instanceID ++ "]" ++ q.name) ++
  (if searchType &&& QUERY_SHOWVALUE ≠ 0 then "=" ++ printed else "") ++
  "\n"

/-- The name part of the record for one registry match: the name, bare
when the (uint32) instance id is zero, otherwise prefixed by the instance
id in brackets via the `%d` conversion. -/
def nameField (v : MatchStep) : String :=
  if v.instanceID % 2^32 = 0 then v.name
  else "[" ++ fmtInt32 (v.instanceID % 2^32) ++ "]" ++ v.name

/-- The record `VARQUERY_Search` writes for one registry match,
expressed directly in terms of the match. -/
def recordFor (searchType : Nat) (v : MatchStep) : String :=
  nameField v ++
  (if searchType &&& QUERY_SHOWVALUE ≠ 0 then "=" ++ v.printed else "") ++
  "\n"

/-- Concatenation of a list of strings. -/
def strConcat : List String → String
  | [] => ""
  | s :: l => s ++ strConcat l

/-- The observable outcome of one `VARQUERY_Search` invocation: the
returned result code, the bytes written to the output file descriptor, the
event trace, and the successive descriptor states (initial descriptor
first, then the descriptor after each cursor write). -/
structure SearchOut where
  result : Nat
  output : String
  trace : List Event
  states : List VarQuery

/-- The `while ( result == EOK )` loop of `VARQUERY_Search`
(varquery.c lines 151-172), driven by the registry oracle: each pending
match is written into the descriptor (the cursor call that returned EOK),
one record is emitted, and the next cursor call is made; when the matches
run out, the cursor call returns the oracle's terminal code, which the
loop returns. -/
def runLoop (searchType : Nat) (q : VarQuery) :
    List MatchStep → Nat → SearchOut
  | [], finalCode =>
      { result := finalCode, output := "", trace := [], states := [q] }
  | v :: rest, finalCode =>
      let q2 := applyStep q v
      let rcd := emitRecord searchType q2 v.printed
      let o := runLoop searchType q2 rest finalCode
      { result := o.result, output := rcd ++ o.output,
        trace := Event.emit rcd :: Event.getNext :: o.trace,
        states := q :: o.states }

/-- Shallow embedding of `VARQUERY_Search` (varquery.c lines 117-176):
build the descriptor, call `VAR_GetFirst`, run the emit/`VAR_GetNext`
loop while the result is EOK, and return the last result code. -/
def VARQUERY_Search (searchType : Nat) («match» tagspec : Option String)
    (instanceID flags maxTagspecLen : Nat) (r : Registry) : SearchOut :=
  let q := buildQuery searchType «match» tagspec instanceID flags maxTagspecLen
  let o := runLoop searchType q r.steps r.final
  { o with trace := Event.build :: Event.getFirst :: o.trace }

/-- The event trace the loop produces for a given match list. -/
def traceOf (searchType : Nat) : List MatchStep → List Event
  | [] => []
  | v :: rest =>
      Event.emit (recordFor searchType v) :: Event.getNext ::
        traceOf searchType rest

/-- The output written after the first `j` matches have been emitted. -/
def outputUpTo (searchType : Nat) (r : Registry) (j : Nat) : String :=
  strConcat ((r.steps.take j).map (recordFor searchType))

theorem applyStep_tagspec (q : VarQuery) (v : MatchStep) :
    (applyStep q v).tagspec = q.tagspec := rfl

theorem emit_applyStep (st : Nat) (q : VarQuery) (v : MatchStep) :
    emitRecord st (applyStep q v) v.printed = recordFor st v := rfl

theorem runLoop_result (st : Nat) (q : VarQuery) (steps : List MatchStep)
    (fin : Nat) : (runLoop st q steps fin).result = fin := by
  induction steps generalizing q with
  | nil => rfl
  | cons v rest ih => simp [runLoop, ih]

theorem runLoop_output (st : Nat) (q : VarQuery) (steps : List MatchStep)
    (fin : Nat) :
    (runLoop st q steps fin).output = strConcat (steps.map (recordFor st)) := by
  induction steps generalizing q with
  | nil => rfl
  | cons v rest ih => simp [runLoop, strConcat, ih, emit_applyStep]

theorem runLoop_trace (st : Nat) (q : VarQuery) (steps : List MatchStep)
    (fin : Nat) :
    (runLoop st q steps fin).trace = traceOf st steps := by
  induction steps generalizing q with
  | nil => rfl
  | cons v rest ih => simp [runLoop, traceOf, ih, emit_applyStep]

theorem runLoop_states_tagspec (st : Nat) (q : VarQuery)
    (steps : List MatchStep) (fin : Nat) :
    ∀ q2 ∈ (runLoop st q steps fin).states, q2.tagspec = q.tagspec := by
  induction steps generalizing q with
  | nil => intro q2 h; simp [runLoop] at h; simp [h]
  | cons v rest ih =>
      intro q2 h
      simp [runLoop] at h
      rcases h with h | h
      · simp [h]
      · exact (ih (applyStep q v) q2 h).trans (applyStep_tagspec q v)

theorem strConcat_append (a b : List String) :
    strConcat (a ++ b) = strConcat a ++ strConcat b := by
  induction a with
  | nil => simp [strConcat]
  | cons s l ih => simp [strConcat, ih, String.append_assoc]

theorem traceOf_count_build (st : Nat) (steps : List MatchStep) :
    (traceOf st steps).count Event.build = 0 := by
  induction steps with
  | nil => rfl
  | cons v rest ih => simp [traceOf, List.count_cons, ih]

theorem traceOf_count_getFirst (st : Nat) (steps : List MatchStep) :
    (traceOf st steps).count Event.getFirst = 0 := by
  induction steps with
  | nil => rfl
  | cons v rest ih => simp [traceOf, List.count_cons, ih]

theorem traceOf_count_getNext (st : Nat) (steps : List MatchStep) :
    (traceOf st steps).count Event.getNext = steps.length := by
  induction steps with
  | nil => rfl
  | cons v rest ih => simp [traceOf, List.count_cons, ih]

theorem isEmit_emit (s : String) : Event.isEmit (Event.emit s) = true := rfl

theorem isEmit_getNext : Event.isEmit Event.getNext = false := rfl

theorem traceOf_countP_emit (st : Nat) (steps : List MatchStep) :
    (traceOf st steps).countP (fun e => e.isEmit) = steps.length := by
  induction steps with
  | nil => rfl
  | cons v rest ih =>
      simp [traceOf, List.countP_cons, ih, isEmit_emit, isEmit_getNext]

theorem getLast_cons_ne (a : Event) (l : List Event) (h : l ≠ []) :
    (a :: l).getLast? = l.getLast? := by
  cases l with
  | nil => exact absurd rfl h
  | cons b m => exact List.getLast?_cons_cons

theorem traceOf_getLast (st : Nat) (steps : List MatchStep)
    (h : steps ≠ []) : (traceOf st steps).getLast? = some Event.getNext := by
  induction steps with
  | nil => exact absurd rfl h
  | cons v rest ih =>
      cases rest with
      | nil => rfl
      | cons w rest2 =>
          have hne : traceOf st (w :: rest2) ≠ [] := by rw [traceOf]; simp
          rw [traceOf, List.getLast?_cons_cons, getLast_cons_ne _ _ hne]
          exact ih (by simp)

theorem digitChar_ne_newline (d : Nat) : digitChar d ≠ '\n' := by
  unfold digitChar
  split <;> decide

theorem decCharsAux_ne_newline :
    ∀ fuel n, ∀ c ∈ decCharsAux fuel n, c ≠ '\n' := by
  intro fuel
  induction fuel with
  | zero =>
      intro n c hc
      cases n with
      | zero => simp [decCharsAux] at hc
      | succ k => simp [decCharsAux] at hc
  | succ f ih =>
      intro n c hc
      cases n with
      | zero => simp [decCharsAux] at hc
      | succ k =>
          rw [decCharsAux] at hc
          rcases List.mem_append.mp hc with h | h
          · exact ih _ c h
          · rw [List.mem_singleton] at h
            subst h
            exact digitChar_ne_newline _

theorem decString_ne_newline (n : Nat) :
    ∀ c ∈ (decString n).data, c ≠ '\n' := by
  intro c hc
  unfold decString at hc
  split at hc
  · simp at hc; subst hc; decide
  · exact decCharsAux_ne_newline n n c hc

theorem fmtInt32_ne_newline (m : Nat) :
    ∀ c ∈ (fmtInt32 m).data, c ≠ '\n' := by
  intro c hc
  unfold fmtInt32 at hc
  split at hc
  · exact decString_ne_newline _ c hc
  · rw [String.data_append] at hc
    rcases List.mem_append.mp hc with h | h
    · simp at h; subst h; decide
    · exact decString_ne_newline _ c h

theorem count_newline_zero (l : List Char) (h : ∀ c ∈ l, c ≠ '\n') :
    l.count '\n' = 0 :=
  List.count_eq_zero.mpr (fun hmem => (h _ hmem) rfl)

theorem isEmit_build : Event.isEmit Event.build = false := rfl

theorem isEmit_getFirst : Event.isEmit Event.getFirst = false := rfl

theorem nameField_ne_newline (v : MatchStep) (hn : '\n' ∉ v.name.data) :
    ∀ c ∈ (nameField v).data, c ≠ '\n' := by
  intro c hc
  unfold nameField at hc
  split at hc
  · intro h; subst h; exact hn hc
  · rw [String.data_append, String.data_append, String.data_append] at hc
    rcases List.mem_append.mp hc with h | h
    · rcases List.mem_append.mp h with h2 | h2
      · rcases List.mem_append.mp h2 with h3 | h3
        · rw [show ("[" : String).data = ['['] from rfl,
            List.mem_singleton] at h3
          subst h3; decide
        · exact fmtInt32_ne_newline _ c h3
      · rw [show ("]" : String).data = [']'] from rfl,
          List.mem_singleton] at h2
        subst h2; decide
    · intro he; subst he; exact hn h

theorem recordFor_count (st : Nat) (v : MatchStep)
    (hn : '\n' ∉ v.name.data) (hp : '\n' ∉ v.printed.data) :
    (recordFor st v).data.count '\n' = 1 := by
  unfold recordFor
  rw [String.data_append, String.data_append, List.count_append,
    List.count_append]
  have h1 : (nameField v).data.count '\n' = 0 :=
    count_newline_zero _ (nameField_ne_newline v hn)
  have h2 : (if st &&& QUERY_SHOWVALUE ≠ 0 then "=" ++ v.printed
      else "").data.count '\n' = 0 := by
    split
    · rw [String.data_append, List.count_append]
      have he : ("=" : String).data.count '\n' = 0 := by decide
      rw [he, List.count_eq_zero.mpr hp]
    · decide
  rw [h1, h2]
  decide

theorem buildQuery_tagspec (st iid fl maxLen : Nat) (m : Option String) :
    ∀ ts : Option String,
      (buildQuery st m ts iid fl maxLen).tagspec = "" ∨
      (∃ s, ts = some s ∧ s.utf8ByteSize < maxLen ∧
        (buildQuery st m ts iid fl maxLen).tagspec = s) := by
  intro ts
  cases ts with
  | none => exact Or.inl rfl
  | some s =>
      by_cases hsz : s.utf8ByteSize < maxLen
      · exact Or.inr ⟨s, rfl, hsz, by simp [buildQuery, hsz]⟩
      · exact Or.inl (by simp [buildQuery, hsz])

/-- C1 (counterexample): with an oversized tagspec (64 bytes, maximum 64)
the code does not fail with EINVAL: it calls `VAR_GetFirst` anyway and
emits output. -/
theorem varquery_C1_counterexample :
    (VARQUERY_Search 0 none (some (String.mk (List.replicate 64 'a'))) 0 0 64
      { steps := [{ name := "temp", instanceID := 0, hVar := 1,
                    printed := "" }],
        final := ENOENT }).result ≠ EINVAL ∧
    (VARQUERY_Search 0 none (some (String.mk (List.replicate 64 'a'))) 0 0 64
      { steps := [{ name := "temp", instanceID := 0, hVar := 1,
                    printed := "" }],
        final := ENOENT }).output ≠ "" ∧
    Event.getFirst ∈
      (VARQUERY_Search 0 none (some (String.mk (List.replicate 64 'a'))) 0 0 64
        { steps := [{ name := "temp", instanceID := 0, hVar := 1,
                      printed := "" }],
          final := ENOENT }).trace := by
  refine ⟨?_, ?_, ?_⟩ <;> decide

/-- C1 (amended): an oversized tagspec (length not strictly below the
maximum) is silently ignored: the descriptor keeps an empty tag
specification, the invocation behaves exactly as if no tagspec had been
given, the traversal is attempted (`VAR_GetFirst` is called) and its
result code — not EINVAL — is returned. -/
theorem varquery_C1 (st iid fl maxLen : Nat) (m : Option String)
    (ts : String) (h : ¬ ts.utf8ByteSize < maxLen) (r : Registry) :
    (buildQuery st m (some ts) iid fl maxLen).tagspec = "" ∧
    VARQUERY_Search st m (some ts) iid fl maxLen r =
      VARQUERY_Search st m none iid fl maxLen r ∧
    (VARQUERY_Search st m (some ts) iid fl maxLen r).result = r.final ∧
    Event.getFirst ∈ (VARQUERY_Search st m (some ts) iid fl maxLen r).trace := by
  have hb : buildQuery st m (some ts) iid fl maxLen =
      buildQuery st m none iid fl maxLen := by
    simp [buildQuery, h]
  refine ⟨?_, ?_, ?_, ?_⟩
  · rw [hb]; rfl
  · unfold VARQUERY_Search
    rw [hb]
  · simp [VARQUERY_Search, runLoop_result]
  · simp [VARQUERY_Search]

theorem varquery_C1_witness :
    (buildQuery 0 none (some (String.mk (List.replicate 64 'a'))) 0 0
      64).tagspec = "" ∧
    VARQUERY_Search 0 none (some (String.mk (List.replicate 64 'a'))) 0 0 64
        { steps := [], final := 2 } =
      VARQUERY_Search 0 none none 0 0 64 { steps := [], final := 2 } ∧
    (VARQUERY_Search 0 none (some (String.mk (List.replicate 64 'a'))) 0 0 64
      { steps := [], final := 2 }).result = 2 ∧
    Event.getFirst ∈
      (VARQUERY_Search 0 none (some (String.mk (List.replicate 64 'a'))) 0 0
        64 { steps := [], final := 2 }).trace :=
  varquery_C1 0 0 0 64 none (String.mk (List.replicate 64 'a')) (by decide)
    { steps := [], final := 2 }

/-- C2 (code bug): a traversal that finds one match and then exhausts
(`VAR_GetNext` returns ENOENT) emits its record but `VARQUERY_Search`
returns ENOENT, not EOK — the loop only exits on a non-EOK code and
returns it, so the EOK success documented in the function header is
unreachable. -/
theorem varquery_C2_bug :
    (VARQUERY_Search 0 none none 0 0 64
      { steps := [{ name := "temp", instanceID := 0, hVar := 1,
                    printed := "" }],
        final := ENOENT }).output = "temp\n" ∧
    (VARQUERY_Search 0 none none 0 0 64
      { steps := [{ name := "temp", instanceID := 0, hVar := 1,
                    printed := "" }],
        final := ENOENT }).result = ENOENT ∧
    ENOENT ≠ EOK := by
  refine ⟨?_, ?_, ?_⟩ <;> decide

/-- C3 (counterexample): for an Active step whose instance id is
`2147483648 = 2^31`, the emitter does not write `[2147483648]x` — the
`%d` conversion of the uint32 instance id prints the negative
two's-complement value, giving `[-2147483648]x`. -/
theorem varquery_C3_counterexample :
    (VARQUERY_Search 0 none none 0 0 64
      { steps := [{ name := "x", instanceID := 2147483648, hVar := 1,
                    printed := "" }],
        final := ENOENT }).output ≠ "[2147483648]x\n" ∧
    (VARQUERY_Search 0 none none 0 0 64
      { steps := [{ name := "x", instanceID := 2147483648, hVar := 1,
                    printed := "" }],
        final := ENOENT }).output = "[-2147483648]x\n" := by
  refine ⟨?_, ?_⟩ <;> decide

/-- C3 (amended): the output of a search is one record per Active step, in
order: the matched name bare when the descriptor's current (uint32)
instance id is 0, and otherwise `[<d>]<name>` where `<d>` is the instance
id rendered by the `%d` conversion — equal to the decimal instance id
whenever the id is below `2^31`, and the negative two's-complement value
otherwise. -/
theorem varquery_C3 (st iid fl maxLen : Nat) (m ts : Option String)
    (r : Registry) (v : MatchStep) :
    (VARQUERY_Search st m ts iid fl maxLen r).output =
      strConcat (r.steps.map (fun w =>
        (if w.instanceID % 2^32 = 0 then w.name
         else "[" ++ fmtInt32 (w.instanceID % 2^32) ++ "]" ++ w.name) ++
        (if st &&& QUERY_SHOWVALUE ≠ 0 then "=" ++ w.printed else "") ++
        "\n")) ∧
    (v.instanceID % 2^32 ≠ 0 → v.instanceID < 2^31 →
      fmtInt32 (v.instanceID % 2^32) = decString v.instanceID) := by
  constructor
  · show (VARQUERY_Search st m ts iid fl maxLen r).output =
      strConcat (r.steps.map (recordFor st))
    simp [VARQUERY_Search, runLoop_output]
  · intro _ h2
    have hm : v.instanceID % 2^32 = v.instanceID :=
      Nat.mod_eq_of_lt (lt_trans h2 (by decide))
    rw [hm]
    unfold fmtInt32
    rw [if_pos h2]

theorem varquery_C3_witness :
    ((VARQUERY_Search 0 none none 0 0 64
        { steps := [{ name := "y", instanceID := 2, hVar := 1,
                      printed := "" }],
          final := 2 }).output =
      strConcat (([{ name := "y", instanceID := 2, hVar := 1,
                     printed := "" }] : List MatchStep).map (fun w =>
        (if w.instanceID % 2^32 = 0 then w.name
         else "[" ++ fmtInt32 (w.instanceID % 2^32) ++ "]" ++ w.name) ++
        (if 0 &&& QUERY_SHOWVALUE ≠ 0 then "=" ++ w.printed else "") ++
        "\n"))) ∧
    fmtInt32 (2 % 2^32) = decString 2 :=
  ⟨(varquery_C3 0 0 0 64 none none
      { steps := [{ name := "y", instanceID := 2, hVar := 1, printed := "" }],
        final := 2 }
      { name := "y", instanceID := 2, hVar := 1, printed := "" }).1,
   (varquery_C3 0 0 0 64 none none
      { steps := [{ name := "y", instanceID := 2, hVar := 1, printed := "" }],
        final := 2 }
      { name := "y", instanceID := 2, hVar := 1, printed := "" }).2
     (by decide) (by decide)⟩

/-- C4 (confirmed): for every Active step, the record is the name field
followed by `=` and the registry-rendered value exactly when the ShowValue
bit is set in the search mode, and — for newline-free names and rendered
values — the record contains exactly one newline character, the appended
terminator. -/
theorem varquery_C4 (st : Nat) (q : VarQuery) (v : MatchStep)
    (hn : '\n' ∉ v.name.data) (hp : '\n' ∉ v.printed.data) :
    (st &&& QUERY_SHOWVALUE ≠ 0 →
      emitRecord st (applyStep q v) v.printed =
        nameField v ++ "=" ++ v.printed ++ "\n") ∧
    (st &&& QUERY_SHOWVALUE = 0 →
      emitRecord st (applyStep q v) v.printed = nameField v ++ "\n") ∧
    (emitRecord st (applyStep q v) v.printed).data.count '\n' = 1 := by
  refine ⟨?_, ?_, ?_⟩
  · intro h
    show recordFor st v = nameField v ++ "=" ++ v.printed ++ "\n"
    unfold recordFor
    rw [if_pos h]
    simp [String.append_assoc]
  · intro h
    show recordFor st v = nameField v ++ "\n"
    unfold recordFor
    rw [if_neg (by simp [h])]
    simp
  · show (recordFor st v).data.count '\n' = 1
    exact recordFor_count st v hn hp

theorem varquery_C4_witness :
    emitRecord 32
      (applyStep
        { type := 32, instanceID := 0, «match» := none, flags := 0,
          tagspec := "", name := "", hVar := 0 }
        { name := "t", instanceID := 0, hVar := 1, printed := "42" })
      "42" =
      nameField { name := "t", instanceID := 0, hVar := 1, printed := "42" } ++
        "=" ++ "42" ++ "\n" :=
  (varquery_C4 32
    { type := 32, instanceID := 0, «match» := none, flags := 0,
      tagspec := "", name := "", hVar := 0 }
    { name := "t", instanceID := 0, hVar := 1, printed := "42" }
    (by decide) (by decide)).1 (by decide)

/-- C5 (confirmed): the event trace of every invocation is exactly —
descriptor construction, then the single `VAR_GetFirst` call, then, for
each Active step in order, one record emission followed by one
`VAR_GetNext` call; hence the descriptor is built once before any cursor
call, `VAR_GetFirst` occurs exactly once, `VAR_GetNext` exactly once per
Active step, and one emission lies between any Active-producing cursor
call and the following cursor call. -/
theorem varquery_C5 (st iid fl maxLen : Nat) (m ts : Option String)
    (r : Registry) :
    (VARQUERY_Search st m ts iid fl maxLen r).trace =
      Event.build :: Event.getFirst :: traceOf st r.steps ∧
    (VARQUERY_Search st m ts iid fl maxLen r).trace.count Event.build = 1 ∧
    (VARQUERY_Search st m ts iid fl maxLen r).trace.count Event.getFirst = 1 ∧
    (VARQUERY_Search st m ts iid fl maxLen r).trace.count Event.getNext =
      r.steps.length ∧
    (VARQUERY_Search st m ts iid fl maxLen r).trace.countP
      (fun e => e.isEmit) = r.steps.length := by
  have ht : (VARQUERY_Search st m ts iid fl maxLen r).trace =
      Event.build :: Event.getFirst :: traceOf st r.steps := by
    simp [VARQUERY_Search, runLoop_trace]
  refine ⟨ht, ?_, ?_, ?_, ?_⟩ <;> rw [ht] <;>
    simp [List.count_cons, List.countP_cons, traceOf_count_build,
      traceOf_count_getFirst, traceOf_count_getNext, traceOf_countP_emit,
      isEmit_build, isEmit_getFirst]

/-- C6 (confirmed): a build with a non-empty tagspec strictly shorter than
the maximum stores the tag specification byte-for-byte and the scalar
fields (search type, instance id, name pattern, flags) exactly as given,
with zeroed cursor state. -/
theorem varquery_C6 (st iid fl maxLen : Nat) (m : Option String)
    (ts : String) (hne : ts ≠ "") (hlen : ts.utf8ByteSize < maxLen) :
    buildQuery st m (some ts) iid fl maxLen =
      { type := st, instanceID := iid, «match» := m, flags := fl,
        tagspec := ts, name := "", hVar := 0 } := by
  simp [buildQuery, hlen]

theorem varquery_C6_witness :
    buildQuery 7 (some "p") (some "a,b") 9 11 64 =
      { type := 7, instanceID := 9, «match» := some "p", flags := 11,
        tagspec := "a,b", name := "", hVar := 0 } :=
  varquery_C6 7 9 11 64 (some "p") "a,b" (by decide) (by decide)

/-- C7 (confirmed): when the cursor reports a non-EOK code after some
Active steps, the search returns exactly that code, the trace ends with
the faulting `VAR_GetNext` call (no further cursor calls or emissions),
and the output is the concatenation of all records emitted before the
fault — every earlier partial output is a prefix of the final output, so
nothing already written is retracted or overwritten. -/
theorem varquery_C7 (st iid fl maxLen : Nat) (m ts : Option String)
    (r : Registry) (hne : r.steps ≠ []) (hf : r.final ≠ EOK) :
    (VARQUERY_Search st m ts iid fl maxLen r).result = r.final ∧
    (VARQUERY_Search st m ts iid fl maxLen r).result ≠ EOK ∧
    (VARQUERY_Search st m ts iid fl maxLen r).output =
      outputUpTo st r r.steps.length ∧
    (∀ j, List.IsPrefix (outputUpTo st r j).data
      (VARQUERY_Search st m ts iid fl maxLen r).output.data) ∧
    (VARQUERY_Search st m ts iid fl maxLen r).trace.getLast? =
      some Event.getNext := by
  have hres : (VARQUERY_Search st m ts iid fl maxLen r).result = r.final := by
    simp [VARQUERY_Search, runLoop_result]
  have hout : (VARQUERY_Search st m ts iid fl maxLen r).output =
      strConcat (r.steps.map (recordFor st)) := by
    simp [VARQUERY_Search, runLoop_output]
  have ht : (VARQUERY_Search st m ts iid fl maxLen r).trace =
      Event.build :: Event.getFirst :: traceOf st r.steps := by
    simp [VARQUERY_Search, runLoop_trace]
  refine ⟨hres, hres ▸ hf, ?_, ?_, ?_⟩
  · rw [hout]
    unfold outputUpTo
    rw [List.take_length]
  · intro j
    refine ⟨(strConcat ((r.steps.drop j).map (recordFor st))).data, ?_⟩
    rw [hout]
    unfold outputUpTo
    rw [← String.data_append, ← strConcat_append, ← List.map_append,
      List.take_append_drop]
  · rw [ht]
    have h1 : traceOf st r.steps ≠ [] := by
      cases hsteps : r.steps with
      | nil => exact absurd hsteps hne
      | cons w rest => rw [traceOf]; simp
    rw [getLast_cons_ne _ _ (by simp [h1]), getLast_cons_ne _ _ h1]
    exact traceOf_getLast st r.steps hne

theorem varquery_C7_witness :
    (VARQUERY_Search 0 none none 0 0 64
      { steps := [{ name := "t", instanceID := 0, hVar := 1, printed := "" }],
        final := 5 }).result = 5 ∧
    List.IsPrefix
      (outputUpTo 0
        { steps := [{ name := "t", instanceID := 0, hVar := 1,
                      printed := "" }],
          final := 5 } 1).data
      (VARQUERY_Search 0 none none 0 0 64
        { steps := [{ name := "t", instanceID := 0, hVar := 1,
                      printed := "" }],
          final := 5 }).output.data :=
  ⟨(varquery_C7 0 0 0 64 none none
      { steps := [{ name := "t", instanceID := 0, hVar := 1, printed := "" }],
        final := 5 } (by decide) (by decide)).1,
   (varquery_C7 0 0 0 64 none none
      { steps := [{ name := "t", instanceID := 0, hVar := 1, printed := "" }],
        final := 5 } (by decide) (by decide)).2.2.2.1 1⟩

/-- C8 (confirmed): when the first cursor call reports no Active match
(empty registry or no candidate matches), nothing is written to the sink
and the traversal ends without any `VAR_GetNext` call. -/
theorem varquery_C8 (st iid fl maxLen : Nat) (m ts : Option String)
    (r : Registry) (h : r.steps = []) :
    (VARQUERY_Search st m ts iid fl maxLen r).output = "" ∧
    (VARQUERY_Search st m ts iid fl maxLen r).trace =
      [Event.build, Event.getFirst] ∧
    Event.getNext ∉ (VARQUERY_Search st m ts iid fl maxLen r).trace := by
  refine ⟨?_, ?_, ?_⟩
  · simp [VARQUERY_Search, runLoop_output, h, strConcat]
  · simp [VARQUERY_Search, runLoop_trace, h, traceOf]
  · simp [VARQUERY_Search, runLoop_trace, h, traceOf]

theorem varquery_C8_witness :
    (VARQUERY_Search 0 none none 0 0 64
      { steps := [], final := 2 }).output = "" ∧
    (VARQUERY_Search 0 none none 0 0 64
      { steps := [], final := 2 }).trace = [Event.build, Event.getFirst] ∧
    Event.getNext ∉ (VARQUERY_Search 0 none none 0 0 64
      { steps := [], final := 2 }).trace :=
  varquery_C8 0 0 0 64 none none { steps := [], final := 2 } rfl

/-- C9 (confirmed): at every point of every traversal — for any tagspec
input, including NULL and oversized ones — the descriptor's stored tag
specification is strictly shorter than the (positive) maximum, and is
never truncated: it is either the given tagspec verbatim or empty. -/
theorem varquery_C9 (st iid fl maxLen : Nat) (m ts : Option String)
    (r : Registry) (hmax : 0 < maxLen) :
    ∀ q ∈ (VARQUERY_Search st m ts iid fl maxLen r).states,
      q.tagspec.utf8ByteSize < maxLen ∧
      (q.tagspec = "" ∨ ts = some q.tagspec) := by
  intro q hq
  have hq2 : q ∈ (runLoop st (buildQuery st m ts iid fl maxLen) r.steps
      r.final).states := hq
  have hts := runLoop_states_tagspec st (buildQuery st m ts iid fl maxLen)
    r.steps r.final q hq2
  rw [hts]
  rcases buildQuery_tagspec st iid fl maxLen m ts with h | ⟨s, hs, hsz, h⟩
  · rw [h]
    exact ⟨hmax, Or.inl rfl⟩
  · rw [h]
    exact ⟨hsz, Or.inr (by rw [hs])⟩

theorem varquery_C9_witness :
    (buildQuery 0 none (some "a,b") 0 0 64).tagspec.utf8ByteSize < 64 ∧
    ((buildQuery 0 none (some "a,b") 0 0 64).tagspec = "" ∨
      some "a,b" = some (buildQuery 0 none (some "a,b") 0 0 64).tagspec) :=
  varquery_C9 0 0 0 64 none (some "a,b") { steps := [], final := 2 }
    (by decide) (buildQuery 0 none (some "a,b") 0 0 64) (by decide)

/-- C10 (confirmed): the value `VARQUERY_Search` returns is exactly the
registry's terminal cursor code — the code of `VAR_GetFirst` when that
call did not return EOK, otherwise the first non-EOK code of
`VAR_GetNext` — and since that code is never EOK, the function never
returns EOK, however many matches were emitted. -/
theorem varquery_C10 (st iid fl maxLen : Nat) (m ts : Option String)
    (r : Registry) (hf : r.final ≠ EOK) :
    (VARQUERY_Search st m ts iid fl maxLen r).result = r.final ∧
    (VARQUERY_Search st m ts iid fl maxLen r).result ≠ EOK := by
  have h : (VARQUERY_Search st m ts iid fl maxLen r).result = r.final := by
    simp [VARQUERY_Search, runLoop_result]
  exact ⟨h, h ▸ hf⟩

theorem varquery_C10_witness :
    (VARQUERY_Search 0 none none 0 0 64
      { steps := [{ name := "t", instanceID := 0, hVar := 1, printed := "" }],
        final := 2 }).result = 2 ∧
    (VARQUERY_Search 0 none none 0 0 64
      { steps := [{ name := "t", instanceID := 0, hVar := 1, printed := "" }],
        final := 2 }).result ≠ EOK :=
  varquery_C10 0 0 0 64 none none
    { steps := [{ name := "t", instanceID := 0, hVar := 1, printed := "" }],
      final := 2 } (by decide)
